import Mathlib

/-!
Verification of `starlette_exporter/middleware.py`, a Starlette middleware that
records one Prometheus counter increment and one histogram observation per
HTTP request.

The middleware is embedded shallowly:

* Python values passed as metric label values become `PyVal` (the code passes
  three strings and one integer).
* The downstream continuation `call_next` is a single value of type
  `Except Failure Response`: either the response it returns or the exception
  it raises.
* The two `time.time()` calls are modelled by a clock oracle
  `clock : Nat → Int`, read in program order (`clock 0` first, `clock 1`
  second).
* All externally observable effects of `dispatch` — clock reads, the
  downstream call, the route-table scan, the error log, metric-object
  construction, the counter increment and the histogram observation — are
  emitted as an ordered trace of `Event`s, and `dispatch` returns the
  delivered result (response or re-raised exception) together with that
  trace.
-/

namespace StarletteExporter

/-- A Python value used as a metric label value: the middleware passes strings
for method, path and app name, and the bare integer status code. -/
inductive PyVal where
  | str (s : String)
  | int (n : Int)
deriving DecidableEq, Repr

/-- Whether a label value is a string. -/
def PyVal.isStr : PyVal → Bool
  | PyVal.str _ => true
  | PyVal.int _ => false

/-- The response produced by `call_next`: a status code plus an opaque body
standing for everything else the response object carries. -/
structure Response where
  status_code : Int
  body : String
deriving DecidableEq, Repr

/-- An exception raised by `call_next`: its type name and message. -/
structure Failure where
  ftype : String
  msg : String
deriving DecidableEq, Repr

/-- One entry of `request.scope['router'].routes`: a declared path template
and the identity of the endpoint it routes to. -/
structure Route where
  path : String
  endpoint : Nat
deriving DecidableEq, Repr

/-- The parts of the Starlette request read by `dispatch`: `request.method`,
`request.url.path`, `request.scope.get('endpoint', None)` (the endpoint
identity resolved by the router, when one was matched) and
`request.scope['router'].routes` (`none` when the scope has no router key). -/
structure Request where
  method : String
  url_path : String
  scope_endpoint : Option Nat
  scope_router : Option (List Route)
deriving DecidableEq, Repr

/-- A prometheus_client metric object as constructed by the middleware:
its name, help text and label names. -/
structure Metric where
  name : String
  help : String
  labelnames : List String
deriving DecidableEq, Repr

/-- `make_request_time_histogram` from the source: a Histogram named
`f"{app_name}_request_duration_seconds"` with the fixed label-name tuple. -/
def make_request_time_histogram (app_name : String) : Metric :=
  { name := app_name ++ "_request_duration_seconds"
  , help := "HTTP request duration, in seconds"
  , labelnames := ["method", "path", "status_code", "app_name"] }

/-- `make_request_time_counter` from the source: a Counter named
`f"{app_name}_requests_total"` with the fixed label-name tuple. -/
def make_request_time_counter (app_name : String) : Metric :=
  { name := app_name ++ "_requests_total"
  , help := "Total HTTP requests"
  , labelnames := ["method", "path", "status_code", "app_name"] }

/-- The configuration stored by `PrometheusMiddleware.__init__`:
`self.group_paths` and `self.app_name`. -/
structure PrometheusMiddleware where
  group_paths : Bool
  app_name : String
deriving DecidableEq, Repr

/-- The keyword-argument defaults of `PrometheusMiddleware.__init__`:
`group_paths: bool = False, app_name: str = "starlette"`. -/
def PrometheusMiddleware.default : PrometheusMiddleware :=
  { group_paths := false, app_name := "starlette" }

/-- The route-template lookup expression inside the `finally` block:
`[route for route in request.scope['router'].routes
  if route.endpoint == request.scope['endpoint']][0].path`.
Returns `none` exactly when the Python expression raises: `KeyError` when the
scope has no router, `IndexError` when no registered route has the resolved
endpoint. When several routes match, `[0]` keeps the first one. -/
def route_path_lookup (request : Request) (ep : Nat) : Option String :=
  match request.scope_router with
  | none => none
  | some routes =>
      ((routes.filter (fun route => route.endpoint == ep)).head?).map Route.path

/-- One externally observable effect of `dispatch`, in program order. -/
inductive Event where
  | clock_read (t : Int)
  | call_next
  | route_lookup
  | log_error
  | make_counter (m : Metric)
  | make_histogram (m : Metric)
  | inc (m : Metric) (labels : List PyVal)
  | observe (m : Metric) (labels : List PyVal) (duration : Int)
deriving DecidableEq, Repr

/-- The path-grouping step of the `finally` block: when `self.group_paths`
holds and the scope carries a resolved endpoint, scan the route table and
substitute the first matching route's template for `path`; when the scan
raises, log the error and keep `path`. Returns the resulting path together
with the events the step emits. -/
def group_path_step (self : PrometheusMiddleware) (request : Request)
    (path : String) : String × List Event :=
  match self.group_paths, request.scope_endpoint with
  | true, some ep =>
      match route_path_lookup request ep with
      | some template => (template, [Event.route_lookup])
      | none => (path, [Event.route_lookup, Event.log_error])
  | _, _ => (path, [])

/-- The status code used for the labels: `response.status_code` when
`call_next` returns, otherwise the default
`status.HTTP_500_INTERNAL_SERVER_ERROR = 500` set before the `try`. -/
def status_code_of (call_next : Except Failure Response) : Int :=
  match call_next with
  | Except.ok response => response.status_code
  | Except.error _ => 500

/-- `PrometheusMiddleware.dispatch`. Reads method and raw path, reads the
clock, awaits `call_next`, and in the `finally` block runs the path-grouping
step, reads the clock again, constructs both metric objects and records one
increment and one observation with the label list
`[method, path, status_code, self.app_name]`. The call's result — the
response, or the exception re-raised by `raise e` — is returned unchanged
alongside the event trace. -/
def dispatch (self : PrometheusMiddleware) (request : Request)
    (call_next : Except Failure Response) (clock : Nat → Int) :
    Except Failure Response × List Event :=
  let method := request.method
  let path := request.url_path
  let begin_time := clock 0
  let status_code := status_code_of call_next
  let result := call_next
  let grouped := group_path_step self request path
  let path := grouped.1
  let end_time := clock 1
  let REQUEST_COUNT := make_request_time_counter self.app_name
  let REQUEST_TIME := make_request_time_histogram self.app_name
  let labels := [PyVal.str method, PyVal.str path, PyVal.int status_code,
    PyVal.str self.app_name]
  (result,
    Event.clock_read begin_time :: Event.call_next :: (grouped.2 ++
      [Event.clock_read end_time,
       Event.make_counter REQUEST_COUNT,
       Event.make_histogram REQUEST_TIME,
       Event.inc REQUEST_COUNT labels,
       Event.observe REQUEST_TIME labels (end_time - begin_time)]))

/-- The label list `dispatch` hands to both `.labels(*labels)` calls. -/
def dispatch_labels (self : PrometheusMiddleware) (request : Request)
    (call_next : Except Failure Response) : List PyVal :=
  [PyVal.str request.method,
   PyVal.str (group_path_step self request request.url_path).1,
   PyVal.int (status_code_of call_next),
   PyVal.str self.app_name]

/-- Label lists of the counter increments in a trace, in order. -/
def incLabels (events : List Event) : List (List PyVal) :=
  events.filterMap fun ev =>
    match ev with
    | Event.inc _ labels => some labels
    | _ => none

/-- Label lists of the histogram observations in a trace, in order. -/
def observeLabels (events : List Event) : List (List PyVal) :=
  events.filterMap fun ev =>
    match ev with
    | Event.observe _ labels _ => some labels
    | _ => none

/-- Metric objects of the counter increments in a trace, in order. -/
def incMetrics (events : List Event) : List Metric :=
  events.filterMap fun ev =>
    match ev with
    | Event.inc m _ => some m
    | _ => none

/-- Metric objects of the histogram observations in a trace, in order. -/
def observeMetrics (events : List Event) : List Metric :=
  events.filterMap fun ev =>
    match ev with
    | Event.observe m _ _ => some m
    | _ => none

/-- Durations of the histogram observations in a trace, in order. -/
def observeDurations (events : List Event) : List Int :=
  events.filterMap fun ev =>
    match ev with
    | Event.observe _ _ d => some d
    | _ => none

/-- Number of counter increments in a trace. -/
def countInc (events : List Event) : Nat := (incLabels events).length

/-- Number of histogram observations in a trace. -/
def countObserve (events : List Event) : Nat := (observeLabels events).length

/-- Number of error-log entries in a trace. -/
def countLog (events : List Event) : Nat :=
  (events.filter fun ev =>
    match ev with
    | Event.log_error => true
    | _ => false).length

/-- Number of Counter constructions in a trace. -/
def countMakeCounter (events : List Event) : Nat :=
  (events.filter fun ev =>
    match ev with
    | Event.make_counter _ => true
    | _ => false).length

/-- Number of Histogram constructions in a trace. -/
def countMakeHistogram (events : List Event) : Nat :=
  (events.filter fun ev =>
    match ev with
    | Event.make_histogram _ => true
    | _ => false).length

/-- The status-code label value (position 2) of each report in a trace,
counter increments first, then histogram observations. -/
def statusLabels (events : List Event) : List (Option PyVal) :=
  (incLabels events ++ observeLabels events).map fun labels => labels.get? 2

/-- The path label value (position 1) of each report in a trace,
counter increments first, then histogram observations. -/
def pathLabels (events : List Event) : List (Option PyVal) :=
  (incLabels events ++ observeLabels events).map fun labels => labels.get? 1

/-- A label list of the shape the middleware always builds:
string, string, integer, string. -/
def labelShape : List PyVal → Bool
  | [PyVal.str _, PyVal.str _, PyVal.int _, PyVal.str _] => true
  | _ => false

/-- The path-grouping step emits no metric events: its trace is empty, a bare
route-table scan, or a scan followed by an error log. -/
theorem group_path_step_events (self : PrometheusMiddleware) (request : Request)
    (path : String) :
    (group_path_step self request path).2 = [] ∨
    (group_path_step self request path).2 = [Event.route_lookup] ∨
    (group_path_step self request path).2 = [Event.route_lookup, Event.log_error] := by
  unfold group_path_step
  cases hg : self.group_paths
  · simp
  · cases hep : request.scope_endpoint with
    | none => simp
    | some ep => cases hl : route_path_lookup request ep <;> simp [hl]

/-- Every dispatch records exactly one counter increment, labelled with
`dispatch_labels`. -/
theorem incLabels_dispatch (self : PrometheusMiddleware) (request : Request)
    (call_next : Except Failure Response) (clock : Nat → Int) :
    incLabels (dispatch self request call_next clock).2 =
      [dispatch_labels self request call_next] := by
  rcases group_path_step_events self request request.url_path with h | h | h <;>
    simp [dispatch, dispatch_labels, incLabels, h]

/-- Every dispatch records exactly one histogram observation, labelled with
`dispatch_labels`. -/
theorem observeLabels_dispatch (self : PrometheusMiddleware) (request : Request)
    (call_next : Except Failure Response) (clock : Nat → Int) :
    observeLabels (dispatch self request call_next clock).2 =
      [dispatch_labels self request call_next] := by
  rcases group_path_step_events self request request.url_path with h | h | h <;>
    simp [dispatch, dispatch_labels, observeLabels, h]

/-- The one counter increment goes to the Counter built for `self.app_name`. -/
theorem incMetrics_dispatch (self : PrometheusMiddleware) (request : Request)
    (call_next : Except Failure Response) (clock : Nat → Int) :
    incMetrics (dispatch self request call_next clock).2 =
      [make_request_time_counter self.app_name] := by
  rcases group_path_step_events self request request.url_path with h | h | h <;>
    simp [dispatch, incMetrics, h]

/-- The one histogram observation goes to the Histogram built for
`self.app_name`. -/
theorem observeMetrics_dispatch (self : PrometheusMiddleware) (request : Request)
    (call_next : Except Failure Response) (clock : Nat → Int) :
    observeMetrics (dispatch self request call_next clock).2 =
      [make_request_time_histogram self.app_name] := by
  rcases group_path_step_events self request request.url_path with h | h | h <;>
    simp [dispatch, observeMetrics, h]

/-- The one observed duration is the second clock reading minus the first. -/
theorem observeDurations_dispatch (self : PrometheusMiddleware) (request : Request)
    (call_next : Except Failure Response) (clock : Nat → Int) :
    observeDurations (dispatch self request call_next clock).2 =
      [clock 1 - clock 0] := by
  rcases group_path_step_events self request request.url_path with h | h | h <;>
    simp [dispatch, observeDurations, h]

/-- Dispatch delivers the downstream result unchanged. -/
theorem dispatch_fst (self : PrometheusMiddleware) (request : Request)
    (call_next : Except Failure Response) (clock : Nat → Int) :
    (dispatch self request call_next clock).1 = call_next := rfl

/-- The full trace of a dispatch, in program order: first clock read, the
downstream call, the path-grouping step's events, second clock read, metric
construction, then the two reports. -/
theorem dispatch_snd (self : PrometheusMiddleware) (request : Request)
    (call_next : Except Failure Response) (clock : Nat → Int) :
    (dispatch self request call_next clock).2 =
      Event.clock_read (clock 0) :: Event.call_next ::
        ((group_path_step self request request.url_path).2 ++
         [Event.clock_read (clock 1),
          Event.make_counter (make_request_time_counter self.app_name),
          Event.make_histogram (make_request_time_histogram self.app_name),
          Event.inc (make_request_time_counter self.app_name)
            (dispatch_labels self request call_next),
          Event.observe (make_request_time_histogram self.app_name)
            (dispatch_labels self request call_next)
            (clock 1 - clock 0)]) := rfl

/-- C1: when the downstream continuation raises, dispatch records exactly one
counter increment and exactly one histogram observation, both carrying the
default status-code label 500, and re-raises the original exception with its
type and message unchanged; the failure is never suppressed. -/
theorem dispatch_downstream_failure (self : PrometheusMiddleware) (request : Request)
    (e : Failure) (clock : Nat → Int) :
    (dispatch self request (Except.error e) clock).1 = Except.error e ∧
    countInc (dispatch self request (Except.error e) clock).2 = 1 ∧
    countObserve (dispatch self request (Except.error e) clock).2 = 1 ∧
    statusLabels (dispatch self request (Except.error e) clock).2 =
      [some (PyVal.int 500), some (PyVal.int 500)] := by
  refine ⟨rfl, ?_, ?_, ?_⟩ <;>
    simp [countInc, countObserve, statusLabels, incLabels_dispatch,
      observeLabels_dispatch, dispatch_labels, status_code_of]

/-- C2: when the downstream continuation returns a response with status code
S, dispatch records exactly one counter increment and exactly one histogram
observation, both carrying the status-code label S, and returns the
downstream response unmodified. -/
theorem dispatch_normal_completion (self : PrometheusMiddleware) (request : Request)
    (response : Response) (clock : Nat → Int) :
    (dispatch self request (Except.ok response) clock).1 = Except.ok response ∧
    countInc (dispatch self request (Except.ok response) clock).2 = 1 ∧
    countObserve (dispatch self request (Except.ok response) clock).2 = 1 ∧
    statusLabels (dispatch self request (Except.ok response) clock).2 =
      [some (PyVal.int response.status_code), some (PyVal.int response.status_code)] := by
  refine ⟨rfl, ?_, ?_, ?_⟩ <;>
    simp [countInc, countObserve, statusLabels, incLabels_dispatch,
      observeLabels_dispatch, dispatch_labels, status_code_of]

/-- C3: with path grouping enabled and an endpoint resolved whose registered
route has template T, both metric reports carry the path label T rather than
the concrete request path. -/
theorem dispatch_grouped_template (self : PrometheusMiddleware) (request : Request)
    (call_next : Except Failure Response) (clock : Nat → Int)
    (routes : List Route) (r : Route)
    (hg : self.group_paths = true)
    (hrt : request.scope_router = some routes)
    (hep : request.scope_endpoint = some r.endpoint)
    (hu : routes.filter (fun q => q.endpoint == r.endpoint) = [r]) :
    pathLabels (dispatch self request call_next clock).2 =
      [some (PyVal.str r.path), some (PyVal.str r.path)] := by
  have hl : route_path_lookup request r.endpoint = some r.path := by
    simp [route_path_lookup, hrt, hu]
  have hp : (group_path_step self request request.url_path).1 = r.path := by
    simp [group_path_step, hg, hep, hl]
  simp [pathLabels, incLabels_dispatch, observeLabels_dispatch, dispatch_labels, hp]

/-- C3 witness: a GET of /items/42 routed to the endpoint registered under
template /items/{id}, with grouping on, reports /items/{id}. -/
theorem dispatch_grouped_template_witness :
    ([Route.mk "/items/{id}" 3].filter
        (fun q => q.endpoint == (Route.mk "/items/{id}" 3).endpoint) =
      [Route.mk "/items/{id}" 3]) ∧
    pathLabels (dispatch (PrometheusMiddleware.mk true "starlette")
        (Request.mk "GET" "/items/42" (some 3) (some [Route.mk "/items/{id}" 3]))
        (Except.ok (Response.mk 200 "")) (fun _ => 0)).2 =
      [some (PyVal.str "/items/{id}"), some (PyVal.str "/items/{id}")] :=
  ⟨by decide,
   dispatch_grouped_template (PrometheusMiddleware.mk true "starlette")
     (Request.mk "GET" "/items/42" (some 3) (some [Route.mk "/items/{id}" 3]))
     (Except.ok (Response.mk 200 "")) (fun _ => 0)
     [Route.mk "/items/{id}" 3] (Route.mk "/items/{id}" 3)
     rfl rfl rfl (by decide)⟩

/-- C4: with grouping disabled, or with grouping enabled but no endpoint
resolved, both metric reports carry the raw request path as the path label. -/
theorem dispatch_raw_path (self : PrometheusMiddleware) (request : Request)
    (call_next : Except Failure Response) (clock : Nat → Int)
    (h : self.group_paths = false ∨ request.scope_endpoint = none) :
    pathLabels (dispatch self request call_next clock).2 =
      [some (PyVal.str request.url_path), some (PyVal.str request.url_path)] := by
  have hp : (group_path_step self request request.url_path).1 = request.url_path := by
    rcases h with h | h
    · cases hep : request.scope_endpoint <;> simp [group_path_step, h, hep]
    · cases hg : self.group_paths <;> simp [group_path_step, h, hg]
  simp [pathLabels, incLabels_dispatch, observeLabels_dispatch, dispatch_labels, hp]

/-- C4 witness: with grouping disabled the reported path is the raw path. -/
theorem dispatch_raw_path_witness :
    ((PrometheusMiddleware.mk false "starlette").group_paths = false ∨
      (Request.mk "GET" "/x" none none).scope_endpoint = none) ∧
    pathLabels (dispatch (PrometheusMiddleware.mk false "starlette")
        (Request.mk "GET" "/x" none none)
        (Except.ok (Response.mk 404 "")) (fun _ => 0)).2 =
      [some (PyVal.str "/x"), some (PyVal.str "/x")] :=
  ⟨Or.inl rfl,
   dispatch_raw_path (PrometheusMiddleware.mk false "starlette")
     (Request.mk "GET" "/x" none none)
     (Except.ok (Response.mk 404 "")) (fun _ => 0) (Or.inl rfl)⟩

/-- C5 counterexample: when two routes are registered for the same resolved
endpoint (ambiguous registration), the lookup does not fail — nothing is
logged and the path label is the first matching route's template, not the raw
request path, contrary to the claim that ambiguity falls back to the raw
path. -/
theorem dispatch_ambiguous_routes_first_match :
    countLog (dispatch (PrometheusMiddleware.mk true "starlette")
        (Request.mk "GET" "/a/42" (some 7)
          (some [Route.mk "/a/{id}" 7, Route.mk "/b/{id}" 7]))
        (Except.ok (Response.mk 200 "")) (fun _ => 0)).2 = 0 ∧
    pathLabels (dispatch (PrometheusMiddleware.mk true "starlette")
        (Request.mk "GET" "/a/42" (some 7)
          (some [Route.mk "/a/{id}" 7, Route.mk "/b/{id}" 7]))
        (Except.ok (Response.mk 200 "")) (fun _ => 0)).2 =
      [some (PyVal.str "/a/{id}"), some (PyVal.str "/a/{id}")] ∧
    ("/a/{id}" : String) ≠ "/a/42" := by decide

/-- C5 (amended): with grouping enabled and an endpoint resolved, if the
route-table lookup fails — the route table is unavailable or no route entry
matches the endpoint — the failure is logged, the path label silently falls
back to the raw request path, and the lookup failure never prevents the
result from being delivered nor the counter increment and histogram
observation from being recorded. -/
theorem dispatch_lookup_failure_fallback (self : PrometheusMiddleware)
    (request : Request) (call_next : Except Failure Response) (clock : Nat → Int)
    (ep : Nat)
    (hg : self.group_paths = true)
    (hep : request.scope_endpoint = some ep)
    (hfail : route_path_lookup request ep = none) :
    (dispatch self request call_next clock).1 = call_next ∧
    countLog (dispatch self request call_next clock).2 = 1 ∧
    countInc (dispatch self request call_next clock).2 = 1 ∧
    countObserve (dispatch self request call_next clock).2 = 1 ∧
    pathLabels (dispatch self request call_next clock).2 =
      [some (PyVal.str request.url_path), some (PyVal.str request.url_path)] := by
  have hstep : group_path_step self request request.url_path =
      (request.url_path, [Event.route_lookup, Event.log_error]) := by
    simp [group_path_step, hg, hep, hfail]
  refine ⟨rfl, ?_, ?_, ?_, ?_⟩
  · simp [countLog, dispatch_snd, hstep]
  · simp [countInc, incLabels_dispatch]
  · simp [countObserve, observeLabels_dispatch]
  · simp [pathLabels, incLabels_dispatch, observeLabels_dispatch,
      dispatch_labels, hstep]

/-- C5 witness: a request whose scope has no router key — the lookup raises,
the error is logged once and the raw path is reported. -/
theorem dispatch_lookup_failure_fallback_witness :
    route_path_lookup (Request.mk "GET" "/y" (some 5) none) 5 = none ∧
    countLog (dispatch (PrometheusMiddleware.mk true "starlette")
        (Request.mk "GET" "/y" (some 5) none)
        (Except.ok (Response.mk 200 "")) (fun _ => 0)).2 = 1 ∧
    pathLabels (dispatch (PrometheusMiddleware.mk true "starlette")
        (Request.mk "GET" "/y" (some 5) none)
        (Except.ok (Response.mk 200 "")) (fun _ => 0)).2 =
      [some (PyVal.str "/y"), some (PyVal.str "/y")] :=
  ⟨rfl,
   (dispatch_lookup_failure_fallback (PrometheusMiddleware.mk true "starlette")
     (Request.mk "GET" "/y" (some 5) none)
     (Except.ok (Response.mk 200 "")) (fun _ => 0) 5 rfl rfl rfl).2.1,
   (dispatch_lookup_failure_fallback (PrometheusMiddleware.mk true "starlette")
     (Request.mk "GET" "/y" (some 5) none)
     (Except.ok (Response.mk 200 "")) (fun _ => 0) 5 rfl rfl rfl).2.2.2.2⟩

/-- C6: the one counter increment goes to a metric named
app_name ++ "_requests_total" and the one histogram observation to a metric
named app_name ++ "_request_duration_seconds", both with the fixed label-name
order (method, path, status_code, app_name). -/
theorem dispatch_metric_names (self : PrometheusMiddleware) (request : Request)
    (call_next : Except Failure Response) (clock : Nat → Int) :
    incMetrics (dispatch self request call_next clock).2 =
      [make_request_time_counter self.app_name] ∧
    observeMetrics (dispatch self request call_next clock).2 =
      [make_request_time_histogram self.app_name] ∧
    (make_request_time_counter self.app_name).name =
      self.app_name ++ "_requests_total" ∧
    (make_request_time_histogram self.app_name).name =
      self.app_name ++ "_request_duration_seconds" ∧
    (make_request_time_counter self.app_name).labelnames =
      ["method", "path", "status_code", "app_name"] ∧
    (make_request_time_histogram self.app_name).labelnames =
      ["method", "path", "status_code", "app_name"] :=
  ⟨incMetrics_dispatch self request call_next clock,
   observeMetrics_dispatch self request call_next clock, rfl, rfl, rfl, rfl⟩

/-- C7: every dispatch constructs exactly one fresh Counter object and one
fresh Histogram object in its finalization step, rather than reusing metric
objects cached across requests. -/
theorem dispatch_fresh_metric_objects (self : PrometheusMiddleware)
    (request : Request) (call_next : Except Failure Response) (clock : Nat → Int) :
    countMakeCounter (dispatch self request call_next clock).2 = 1 ∧
    countMakeHistogram (dispatch self request call_next clock).2 = 1 := by
  rcases group_path_step_events self request request.url_path with h | h | h <;>
    exact ⟨by simp [countMakeCounter, dispatch_snd, h],
           by simp [countMakeHistogram, dispatch_snd, h]⟩

/-- C8 counterexample: the status-code label value the middleware passes is
the bare integer 200, which is not a string — the label list is built as
`[method, path, status_code, self.app_name]` with no stringification. -/
theorem dispatch_status_label_integer :
    statusLabels (dispatch (PrometheusMiddleware.mk false "starlette")
        (Request.mk "GET" "/" none none)
        (Except.ok (Response.mk 200 "ok")) (fun _ => 0)).2 =
      [some (PyVal.int 200), some (PyVal.int 200)] ∧
    PyVal.isStr (PyVal.int 200) = false := by decide

/-- C8 (amended): in every report the method, path and app-name label values
are strings, while the status code is passed as an integer label value; its
stringification, if any, is left to the external metrics library. -/
theorem dispatch_label_value_types (self : PrometheusMiddleware)
    (request : Request) (call_next : Except Failure Response) (clock : Nat → Int) :
    ((incLabels (dispatch self request call_next clock).2 ++
        observeLabels (dispatch self request call_next clock).2).all labelShape) = true ∧
    statusLabels (dispatch self request call_next clock).2 =
      [some (PyVal.int (status_code_of call_next)),
       some (PyVal.int (status_code_of call_next))] := by
  constructor
  · simp [incLabels_dispatch, observeLabels_dispatch, dispatch_labels, labelShape]
  · simp [statusLabels, incLabels_dispatch, observeLabels_dispatch, dispatch_labels]

/-- C9 counterexample: the constructor default for app_name is "starlette",
not "app" as claimed. -/
theorem default_app_name_not_app :
    PrometheusMiddleware.default.app_name = "starlette" ∧
    ("starlette" : String) ≠ "app" := by decide

/-- C9 (amended): constructed without explicit arguments, group_paths
defaults to false and app_name defaults to "starlette"; both are plain
immutable fields fixed at construction. -/
theorem default_configuration :
    PrometheusMiddleware.default.group_paths = false ∧
    PrometheusMiddleware.default.app_name = "starlette" := by decide

/-- C10: the observed duration is the second clock reading minus the first,
where the first reading is taken before the downstream call (trace positions
0 and 1) and the second reading is taken only after the path-grouping step of
the finalization block — so the recorded elapsed time includes the
route-table scan. -/
theorem dispatch_duration_spans_lookup (self : PrometheusMiddleware)
    (request : Request) (call_next : Except Failure Response) (clock : Nat → Int) :
    observeDurations (dispatch self request call_next clock).2 =
      [clock 1 - clock 0] ∧
    (dispatch self request call_next clock).2.take 2 =
      [Event.clock_read (clock 0), Event.call_next] ∧
    ((dispatch self request call_next clock).2.drop 2).take
        ((group_path_step self request request.url_path).2.length + 1) =
      (group_path_step self request request.url_path).2 ++
        [Event.clock_read (clock 1)] := by
  refine ⟨observeDurations_dispatch self request call_next clock, ?_, ?_⟩
  · rw [dispatch_snd]
    rfl
  · rw [dispatch_snd]
    simp [List.take_append]

end StarletteExporter
